import Mathlib

/-!
# Verification of the Infiltrate image-conversion routine

This file gives a shallow embedding, in Lean 4, of the image-conversion
logic of `Infiltrate/Content/Scripts/ImageConverter.py`:

* the Python string operations the module uses (`str.lower`, `str.upper`,
  `str.endswith`, `os.path.splitext`) as functions on Lean `String`s;
* the PIL image values the module manipulates (mode, size, pixels) and the
  two PIL calls used for alpha flattening (`Image.new`, `Image.paste` with
  an alpha mask);
* the format-selection dialog `ImageFormatDialog` (its target-format list,
  its `browse_output` extension normalization, and its accept step) as a
  small state machine;
* the conversion body of `ImageConverterWidget.convert_image`
  (lines 482-527 of the source) as a function from the request data and
  oracles for the two external library calls (decode and save) to the list
  of observable UI events plus a final result.

External library calls (PIL decode, PIL save) are passed in as oracle
functions so that theorems quantify over every possible outcome of those
calls.  One point needs care: the module's import list from
`PyQt5.QtCore` (source line 9) does NOT include `QTimer`, yet line 516
evaluates `QTimer.singleShot(...)` after a successful save; in Python this
raises `NameError` inside the same `try` block whose handler reports a
conversion failure.  The embedding records the module's imported names and
follows that control flow exactly.
-/

namespace Infiltrate

/-! ## Python string primitives -/

/-- Python `str.lower()` (ASCII behaviour, which is all the module uses). -/
def pyLower (s : String) : String := ⟨s.data.map Char.toLower⟩

/-- Python `str.upper()` (ASCII behaviour, which is all the module uses). -/
def pyUpper (s : String) : String := ⟨s.data.map Char.toUpper⟩

/-- Python `s.endswith(suffix)`. -/
def pyEndsWith (s suffix : String) : Bool := List.isSuffixOf suffix.data s.data

/-- Python `os.path.splitext(path)[1][1:]`: the extension after the last
dot, without the dot, or `""` when the path has no dot (source line 470
derives `original_format` this way before lowercasing). -/
def pySplitextExt (path : String) : String :=
  if path.data.contains '.' then
    ⟨(path.data.reverse.takeWhile (fun c => c != '.')).reverse⟩
  else ""

/-! ## PIL images -/

/-- The PIL image modes the module can meet.  `RGBA` and `LA` carry an
alpha band; the converter's flatten branch tests for `RGBA` only. -/
inductive Mode where
  | RGB
  | RGBA
  | L
  | LA
  | P
  deriving DecidableEq, Repr, BEq

/-- Whether a PIL mode carries an alpha band. -/
def Mode.hasAlpha : Mode → Bool
  | .RGBA => true
  | .LA => true
  | _ => false

structure Size where
  w : Nat
  h : Nat
  deriving DecidableEq, Repr, BEq

/-- One pixel; channel values are 0..255.  For modes without an alpha band
the `a` field is 255. -/
structure Pixel where
  r : Nat
  g : Nat
  b : Nat
  a : Nat
  deriving DecidableEq, Repr, BEq

/-- A decoded raster image: mode, size, row-major pixel list. -/
structure PILImage where
  mode : Mode
  size : Size
  pixels : List Pixel
  deriving DecidableEq, Repr, BEq

/-- `PIL.Image.new(mode, size, color)`: a uniform image. -/
def ImageNew (mode : Mode) (size : Size) (color : Pixel) : PILImage :=
  ⟨mode, size, List.replicate (size.w * size.h) color⟩

/-- The white RGB pixel used for the flatten background at source line 504. -/
def whitePixel : Pixel := ⟨255, 255, 255, 255⟩

/-- PIL compositing of one channel: foreground weighted by the mask value
`a`, background by `255 - a`. -/
def blend (bg fg a : Nat) : Nat := (fg * a + bg * (255 - a)) / 255

/-- `background.paste(img, mask=img.split()[3])` (source line 505): paste
`src` over `bg` using `src`'s alpha band as the mask.  The result keeps
`bg`'s mode and size; each pixel blends `src` over `bg` by `src`'s alpha. -/
def pasteAlphaMask (bg src : PILImage) : PILImage :=
  { mode := bg.mode
    size := bg.size
    pixels := List.zipWith
      (fun b s => ⟨blend b.r s.r s.a, blend b.g s.g s.a, blend b.b s.b s.a, b.a⟩)
      bg.pixels src.pixels }

/-! ## The conversion routine (source lines 482-527) -/

/-- The names `ImageConverter.py` imports from `PyQt5.QtCore`
(source line 9).  `QTimer` is absent, so the bare name `QTimer` at source
line 516 raises `NameError` when evaluated. -/
def importedQtCoreNames : List String :=
  ["Qt", "QSize", "QMimeData", "QUrl", "QRect", "QPropertyAnimation",
   "QEasingCurve", "pyqtSignal"]

/-- Source lines 497-499: uppercase the dialog token and translate the
label `"JPG"` to PIL's encoder identifier `"JPEG"`. -/
def normalizeFormat (selected_format : String) : String :=
  let u := pyUpper selected_format
  if u = "JPG" then "JPEG" else u

/-- Source lines 501-508: the image actually handed to the encoder.  When
the normalized target format is `"JPEG"` or `"BMP"` and the decoded image
has mode `RGBA`, it is the source composited over a fresh white RGB
background using the source's alpha band as the mask; otherwise it is the
decoded image unchanged. -/
def chosenImage (img : PILImage) (target_format : String) : PILImage :=
  if ["JPEG", "BMP"].contains target_format && img.mode == Mode.RGBA then
    pasteAlphaMask (ImageNew Mode.RGB img.size whitePixel) img
  else img

/-- Observable events of one conversion run: progress-dialog updates, the
single call into the PIL save routine (recording exactly which image,
path and format identifier were handed to the encoder), a plain byte copy
of the source file (an action the specification describes; the routine
would emit it if it ever short-circuited a re-encode), and the final
message boxes. -/
inductive Ev where
  | status (text : String)
  | progress (value : Nat)
  | save (path : String) (img : PILImage) (fmt : String)
  | copy (src dst : String)
  | successBox (text : String)
  | errorBox (text : String)
  deriving DecidableEq, Repr, BEq

/-- The outcome delivered to the caller (the spec's `ConversionResult`). -/
structure ConvResult where
  success : Bool
  message : String
  deriving DecidableEq, Repr, BEq

/-- One full run: the emitted events in order, and the final result. -/
structure RunOutcome where
  events : List Ev
  result : ConvResult
  deriving DecidableEq, Repr, BEq

/-- The conversion body of `ImageConverterWidget.convert_image`
(source lines 482-527), with the two external library calls abstracted as
oracles:

* `decode path` is the outcome of `Image.open(path)` (line 489);
* `save path img fmt` is the outcome of `img.save(path, fmt)`
  (line 506 or 508) — `.ok ()` means the destination file was written.

Control flow, in source order: status "Loading image..." and progress 10
(lines 484-485); decode; status "Converting image..." and progress 40
(lines 492-493); format normalization (497-499); the flatten branch
(502-506) taken exactly when the normalized format is `"JPEG"` or `"BMP"`
and the image mode is `RGBA`; the save call; status
"Conversion complete!" and progress 100 (511-512); then line 516 evaluates
the name `QTimer`, which is not among `importedQtCoreNames`, so a
`NameError` is raised and the `except` handler at lines 525-527 reports a
conversion failure.  (The success message at lines 519-523 would run only
if `QTimer` were imported.)  Any decode or save error is caught by the
same handler. -/
def convert_image (decode : String → Except String PILImage)
    (save : String → PILImage → String → Except String Unit)
    (current_image_path : String) (selected_format : String)
    (output_path : String) : RunOutcome :=
  let pre := [Ev.status "Loading image...", Ev.progress 10]
  match decode current_image_path with
  | .error e =>
      let msg := "Error during conversion: " ++ e
      ⟨pre ++ [Ev.errorBox msg], ⟨false, msg⟩⟩
  | .ok img =>
      let mid := pre ++ [Ev.status "Converting image...", Ev.progress 40]
      let target_format := normalizeFormat selected_format
      let toSave := chosenImage img target_format
      let evs := mid ++ [Ev.save output_path toSave target_format]
      match save output_path toSave target_format with
      | .error e =>
          let msg := "Error during conversion: " ++ e
          ⟨evs ++ [Ev.errorBox msg], ⟨false, msg⟩⟩
      | .ok _ =>
          let done := evs ++ [Ev.status "Conversion complete!", Ev.progress 100]
          if importedQtCoreNames.contains "QTimer" then
            let okMsg := "Image successfully converted to "
              ++ pyUpper selected_format ++ " format."
            ⟨done ++ [Ev.successBox okMsg], ⟨true, okMsg⟩⟩
          else
            let msg := "Error during conversion: name QTimer is not defined"
            ⟨done ++ [Ev.errorBox msg], ⟨false, msg⟩⟩

/-- The (path, image, format) triple of the run's save call, if any. -/
def saveCall (o : RunOutcome) : Option (String × PILImage × String) :=
  o.events.findSome? fun e =>
    match e with
    | .save p i f => some (p, i, f)
    | _ => none

/-- Whether the run performed a plain byte copy of the source file. -/
def emitsCopy (o : RunOutcome) : Bool :=
  o.events.any fun e =>
    match e with
    | .copy _ _ => true
    | _ => false

/-! ## The format-selection dialog (source lines 84-160) -/

/-- The target formats offered by `ImageFormatDialog.init_ui`
(source line 101). -/
def supported_formats : List String :=
  ["PNG", "JPEG", "BMP", "GIF", "TIFF", "WEBP", "ICO", "PPM"]

/-- Source lines 104-107: when the source file's format token (its
lowercased extension) uppercases to a member of `supported_formats`, that
member is removed from the combo box; otherwise the list is unchanged. -/
def dialogFormats (original_format : String) : List String :=
  if original_format != "" && supported_formats.contains (pyUpper original_format) then
    supported_formats.erase (pyUpper original_format)
  else supported_formats

/-- `ImageFormatDialog.browse_output` (source lines 141-155): the chosen
file name is given the extension of the format selected in the combo box
at that moment, unless it already ends with it (case-insensitively). -/
def browse_output (comboFormat : String) (filename : String) : String :=
  let selected_format := pyLower comboFormat
  if pyEndsWith (pyLower filename) ("." ++ selected_format) then filename
  else filename ++ ("." ++ selected_format)

/-- The dialog's mutable state: the combo-box selection, the output path
chosen through `browse_output` (if any), the format token captured by
`accept_conversion`, and whether the Convert button is enabled. -/
structure DialogState where
  comboFormat : String
  output_path : Option String
  selected_format : Option String
  convert_enabled : Bool
  deriving DecidableEq, Repr

/-- User interactions with the dialog: changing the combo box, browsing
for an output file (`none` = the file dialog was cancelled), and pressing
Convert. -/
inductive DlgEvent where
  | setFormat (f : String)
  | browse (chosen : Option String)
  | accept
  deriving DecidableEq, Repr

/-- The dialog's reaction to one interaction.  Changing the combo box
updates only the selection: no handler is connected to it, so an already
chosen `output_path` keeps its old extension.  Browsing normalizes the
chosen name with `browse_output` and enables Convert (lines 149-156).
`accept_conversion` (lines 158-160) stores the lowercased current combo
text. -/
def dialogStep (s : DialogState) (e : DlgEvent) : DialogState :=
  match e with
  | .setFormat f => { s with comboFormat := f }
  | .browse none => s
  | .browse (some name) =>
      { s with output_path := some (browse_output s.comboFormat name)
               convert_enabled := true }
  | .accept => { s with selected_format := some (pyLower s.comboFormat) }

/-- The dialog as opened for a source file whose lowercased extension is
`original_format`: the combo box shows the first offered format, nothing
is chosen yet (source lines 84-139, 470-473). -/
def initDialog (original_format : String) : DialogState :=
  ⟨(dialogFormats original_format).headD "", none, none, false⟩

/-- Run the dialog through a list of interactions. -/
def runDialog (original_format : String) (evs : List DlgEvent) : DialogState :=
  evs.foldl dialogStep (initDialog original_format)

/-- Modelled from the spec (section 6, "Supported target format tokens"):
the canonical format named by a lowercased file extension — PNG, JPEG
(alias JPG), BMP, TIFF, GIF, WEBP, ICO, PPM — or `none` when the
extension names no supported format.  Used only to state claims that
compare the dialog's behaviour with the spec's notion of "the source's
own format". -/
def specFormatOfExt (e : String) : Option String :=
  if e = "png" then some "PNG"
  else if e = "jpg" ∨ e = "jpeg" then some "JPEG"
  else if e = "bmp" then some "BMP"
  else if e = "tiff" then some "TIFF"
  else if e = "gif" then some "GIF"
  else if e = "webp" then some "WEBP"
  else if e = "ico" then some "ICO"
  else if e = "ppm" then some "PPM"
  else none

/-! ## Helper lemmas about the string primitives -/

lemma isPrefixOf_self_append (l t : List Char) :
    List.isPrefixOf l (l ++ t) = true := by
  induction l with
  | nil => simp [List.isPrefixOf]
  | cons c cs ih => simp [List.isPrefixOf, ih]

lemma isSuffixOf_append_right (x y : List Char) :
    List.isSuffixOf y (x ++ y) = true := by
  unfold List.isSuffixOf
  rw [List.reverse_append]
  exact isPrefixOf_self_append y.reverse x.reverse

lemma pyEndsWith_append (x y : String) : pyEndsWith (x ++ y) y = true := by
  cases x with
  | mk dx =>
    cases y with
    | mk dy =>
      show List.isSuffixOf dy (dx ++ dy) = true
      exact isSuffixOf_append_right dx dy

lemma pyLower_append (x y : String) :
    pyLower (x ++ y) = pyLower x ++ pyLower y := by
  cases x with
  | mk dx =>
    cases y with
    | mk dy =>
      show String.mk ((dx ++ dy).map Char.toLower)
        = String.mk (dx.map Char.toLower ++ dy.map Char.toLower)
      rw [List.map_append]

/-- After `browse_output`, the stored path ends (case-insensitively) with
the dot-extension of the combo format selected at browse time, provided
lowering that format token is idempotent (true of every token the combo
box can show). -/
lemma browse_output_ext (c name : String)
    (hc : pyLower (pyLower c) = pyLower c) :
    pyEndsWith (pyLower (browse_output c name)) ("." ++ pyLower c) = true := by
  unfold browse_output
  simp only []
  split
  · assumption
  · rw [pyLower_append, pyLower_append,
      show pyLower "." = "." from by decide, hc]
    exact pyEndsWith_append _ _

/-! ## Claim theorems -/

/-- C1: for every conversion whose normalized target format is JPEG or BMP
and whose decoded source has mode RGBA, the image handed to the encoder is
the source composited over a fresh white RGB background of the source's
size, using the source's alpha band as the mask; that image has mode RGB,
hence no alpha band, so no alpha-channel encoding error can arise and the
output has no alpha channel. -/
theorem flatten_rgba_for_jpeg_bmp
    (decode : String → Except String PILImage)
    (save : String → PILImage → String → Except String Unit)
    (src sel dst : String) (img : PILImage)
    (hdec : decode src = Except.ok img) (hmode : img.mode = Mode.RGBA)
    (hfmt : normalizeFormat sel = "JPEG" ∨ normalizeFormat sel = "BMP") :
    saveCall (convert_image decode save src sel dst)
      = some (dst, pasteAlphaMask (ImageNew Mode.RGB img.size whitePixel) img,
          normalizeFormat sel)
    ∧ (pasteAlphaMask (ImageNew Mode.RGB img.size whitePixel) img).mode = Mode.RGB
    ∧ Mode.hasAlpha (pasteAlphaMask (ImageNew Mode.RGB img.size whitePixel) img).mode
        = false
    ∧ (pasteAlphaMask (ImageNew Mode.RGB img.size whitePixel) img).size = img.size := by
  have hcond :
      (["JPEG", "BMP"].contains (normalizeFormat sel) && img.mode == Mode.RGBA)
        = true := by
    rcases hfmt with h | h <;> rw [h, hmode] <;> decide
  have himg : chosenImage img (normalizeFormat sel)
      = pasteAlphaMask (ImageNew Mode.RGB img.size whitePixel) img := by
    unfold chosenImage
    rw [hcond]
    simp
  refine ⟨?_, rfl, rfl, rfl⟩
  unfold convert_image
  rw [hdec]
  simp only [himg]
  cases save dst (pasteAlphaMask (ImageNew Mode.RGB img.size whitePixel) img)
      (normalizeFormat sel) <;>
    simp [saveCall, importedQtCoreNames]

/-- Witness for C1 at a concrete 1x1 RGBA image converted to JPEG. -/
theorem flatten_rgba_for_jpeg_bmp_witness :
    ((fun _ => Except.ok ⟨Mode.RGBA, ⟨1, 1⟩, [⟨10, 20, 30, 128⟩]⟩) :
        String → Except String PILImage) "a.png"
        = Except.ok (⟨Mode.RGBA, ⟨1, 1⟩, [⟨10, 20, 30, 128⟩]⟩ : PILImage)
    ∧ (⟨Mode.RGBA, ⟨1, 1⟩, [⟨10, 20, 30, 128⟩]⟩ : PILImage).mode = Mode.RGBA
    ∧ (normalizeFormat "jpeg" = "JPEG" ∨ normalizeFormat "jpeg" = "BMP")
    ∧ (saveCall (convert_image
          ((fun _ => Except.ok ⟨Mode.RGBA, ⟨1, 1⟩, [⟨10, 20, 30, 128⟩]⟩) :
            String → Except String PILImage)
          (fun _ _ _ => Except.ok ()) "a.png" "jpeg" "b.jpeg")
        = some ("b.jpeg",
            pasteAlphaMask
              (ImageNew Mode.RGB (⟨Mode.RGBA, ⟨1, 1⟩, [⟨10, 20, 30, 128⟩]⟩ :
                PILImage).size whitePixel)
              (⟨Mode.RGBA, ⟨1, 1⟩, [⟨10, 20, 30, 128⟩]⟩ : PILImage),
            normalizeFormat "jpeg")
      ∧ (pasteAlphaMask
          (ImageNew Mode.RGB (⟨Mode.RGBA, ⟨1, 1⟩, [⟨10, 20, 30, 128⟩]⟩ :
            PILImage).size whitePixel)
          (⟨Mode.RGBA, ⟨1, 1⟩, [⟨10, 20, 30, 128⟩]⟩ : PILImage)).mode = Mode.RGB
      ∧ Mode.hasAlpha (pasteAlphaMask
          (ImageNew Mode.RGB (⟨Mode.RGBA, ⟨1, 1⟩, [⟨10, 20, 30, 128⟩]⟩ :
            PILImage).size whitePixel)
          (⟨Mode.RGBA, ⟨1, 1⟩, [⟨10, 20, 30, 128⟩]⟩ : PILImage)).mode = false
      ∧ (pasteAlphaMask
          (ImageNew Mode.RGB (⟨Mode.RGBA, ⟨1, 1⟩, [⟨10, 20, 30, 128⟩]⟩ :
            PILImage).size whitePixel)
          (⟨Mode.RGBA, ⟨1, 1⟩, [⟨10, 20, 30, 128⟩]⟩ : PILImage)).size
        = (⟨Mode.RGBA, ⟨1, 1⟩, [⟨10, 20, 30, 128⟩]⟩ : PILImage).size) :=
  ⟨rfl, rfl, Or.inl (by decide),
    flatten_rgba_for_jpeg_bmp _ _ "a.png" "jpeg" "b.jpeg" _ rfl rfl
      (Or.inl (by decide))⟩

/-- C3: for every decode and save oracle, source path and output path, the
conversion run with requested target token "JPG" is identical, event for
event and in its final result, to the run with token "JPEG": the token is
normalized to the encoder identifier "JPEG" before any dispatch. -/
theorem jpg_token_equals_jpeg_token
    (decode : String → Except String PILImage)
    (save : String → PILImage → String → Except String Unit)
    (src dst : String) :
    convert_image decode save src "JPG" dst
      = convert_image decode save src "JPEG" dst := by
  unfold convert_image
  cases hdec : decode src with
  | error e => rfl
  | ok img =>
    simp only [show normalizeFormat "JPG" = "JPEG" from by decide,
      show normalizeFormat "JPEG" = "JPEG" from by decide,
      show importedQtCoreNames.contains "QTimer" = false from by decide,
      Bool.false_eq_true, if_false]

/-- C6: whenever the decoder fails with error text `e`, the conversion run
delivers a failure result whose message embeds `e`, and the event trace
stops right after the decode attempt: only the initial status and the
progress-10 event precede the error box, so no further progress event is
emitted, and the routine returns normally instead of propagating the
exception. -/
theorem decode_failure_reported
    (decode : String → Except String PILImage)
    (save : String → PILImage → String → Except String Unit)
    (src sel dst e : String) (hdec : decode src = Except.error e) :
    convert_image decode save src sel dst
      = ⟨[Ev.status "Loading image...", Ev.progress 10,
          Ev.errorBox ("Error during conversion: " ++ e)],
         ⟨false, "Error during conversion: " ++ e⟩⟩ := by
  unfold convert_image
  rw [hdec]
  rfl

/-- Witness for C6 at a concrete undecodable source. -/
theorem decode_failure_reported_witness :
    ((fun _ => Except.error "cannot identify image file") :
        String → Except String PILImage) "bad.bin"
        = Except.error "cannot identify image file"
    ∧ convert_image
        ((fun _ => Except.error "cannot identify image file") :
          String → Except String PILImage)
        (fun _ _ _ => Except.ok ()) "bad.bin" "png" "out.png"
      = ⟨[Ev.status "Loading image...", Ev.progress 10,
          Ev.errorBox ("Error during conversion: " ++ "cannot identify image file")],
         ⟨false, "Error during conversion: " ++ "cannot identify image file"⟩⟩ :=
  ⟨rfl, decode_failure_reported _ _ "bad.bin" "png" "out.png"
    "cannot identify image file" rfl⟩

/-- C2 counterexample: a request whose target format's canonical extension
("jpeg", the lowercased format token the dialog itself uses for file
names) equals the source file's extension while the source and destination
paths differ.  The claim says such a request is served by a plain byte
copy; the run shows no copy action is performed and the image is instead
re-encoded through the library with the target identifier. -/
theorem reencode_despite_equal_extension :
    pySplitextExt "a.jpeg" = pyLower "JPEG"
    ∧ ("a.jpeg" : String) ≠ "b.jpeg"
    ∧ emitsCopy (convert_image
        ((fun _ => Except.ok ⟨Mode.RGB, ⟨1, 1⟩, [⟨1, 2, 3, 255⟩]⟩) :
          String → Except String PILImage)
        (fun _ _ _ => Except.ok ()) "a.jpeg" "jpeg" "b.jpeg") = false
    ∧ saveCall (convert_image
        ((fun _ => Except.ok ⟨Mode.RGB, ⟨1, 1⟩, [⟨1, 2, 3, 255⟩]⟩) :
          String → Except String PILImage)
        (fun _ _ _ => Except.ok ()) "a.jpeg" "jpeg" "b.jpeg")
      = some ("b.jpeg", ⟨Mode.RGB, ⟨1, 1⟩, [⟨1, 2, 3, 255⟩]⟩, "JPEG") := by
  refine ⟨by decide, by decide, by decide, by decide⟩

/-- C2 amended: whenever the source decodes, the conversion re-encodes it
through the image library with the normalized target format identifier —
it never performs a plain byte copy, even when the target format's
canonical extension equals the source's extension and the paths differ. -/
theorem always_reencodes
    (decode : String → Except String PILImage)
    (save : String → PILImage → String → Except String Unit)
    (src sel dst : String) (img : PILImage)
    (hdec : decode src = Except.ok img) :
    emitsCopy (convert_image decode save src sel dst) = false
    ∧ saveCall (convert_image decode save src sel dst)
        = some (dst, chosenImage img (normalizeFormat sel), normalizeFormat sel) := by
  unfold convert_image
  rw [hdec]
  rcases hs : save dst (chosenImage img (normalizeFormat sel)) (normalizeFormat sel)
      with e | u <;>
    simp [hs, emitsCopy, saveCall, importedQtCoreNames]

/-- Witness for the amended C2 at a concrete decodable source. -/
theorem always_reencodes_witness :
    ((fun _ => Except.ok ⟨Mode.RGB, ⟨2, 1⟩, [⟨9, 9, 9, 255⟩, ⟨8, 8, 8, 255⟩]⟩) :
        String → Except String PILImage) "in.gif"
      = Except.ok (⟨Mode.RGB, ⟨2, 1⟩, [⟨9, 9, 9, 255⟩, ⟨8, 8, 8, 255⟩]⟩ : PILImage)
    ∧ (emitsCopy (convert_image
        ((fun _ => Except.ok ⟨Mode.RGB, ⟨2, 1⟩, [⟨9, 9, 9, 255⟩, ⟨8, 8, 8, 255⟩]⟩) :
          String → Except String PILImage)
        (fun _ _ _ => Except.ok ()) "in.gif" "webp" "out.webp") = false
      ∧ saveCall (convert_image
          ((fun _ => Except.ok ⟨Mode.RGB, ⟨2, 1⟩, [⟨9, 9, 9, 255⟩, ⟨8, 8, 8, 255⟩]⟩) :
            String → Except String PILImage)
          (fun _ _ _ => Except.ok ()) "in.gif" "webp" "out.webp")
        = some ("out.webp",
            chosenImage ⟨Mode.RGB, ⟨2, 1⟩, [⟨9, 9, 9, 255⟩, ⟨8, 8, 8, 255⟩]⟩
              (normalizeFormat "webp"),
            normalizeFormat "webp")) :=
  ⟨rfl, always_reencodes _ _ "in.gif" "webp" "out.webp" _ rfl⟩

/-- C4 counterexample: a 1x1 mode-LA image (a mode that carries an alpha
band) converted to JPEG (a target without alpha support) is handed to the
encoder unflattened, still carrying its alpha band — refuting the claim
that every alpha-bearing image is flattened for every alpha-lacking
target. -/
theorem la_image_not_flattened :
    Mode.hasAlpha (⟨Mode.LA, ⟨1, 1⟩, [⟨7, 7, 7, 0⟩]⟩ : PILImage).mode = true
    ∧ saveCall (convert_image
        ((fun _ => Except.ok ⟨Mode.LA, ⟨1, 1⟩, [⟨7, 7, 7, 0⟩]⟩) :
          String → Except String PILImage)
        (fun _ _ _ => Except.ok ()) "a.png" "jpeg" "o.jpg")
      = some ("o.jpg", ⟨Mode.LA, ⟨1, 1⟩, [⟨7, 7, 7, 0⟩]⟩, "JPEG") := by
  refine ⟨by decide, by decide⟩

/-- C4 amended: the flatten rule fires exactly for normalized target JPEG
or BMP with source mode RGBA; in every other combination — including
alpha-bearing modes other than RGBA, and alpha-lacking targets other than
the two named — the decoded image is handed to the encoder unchanged. -/
theorem flatten_only_for_rgba_jpeg_bmp
    (decode : String → Except String PILImage)
    (save : String → PILImage → String → Except String Unit)
    (src sel dst : String) (img : PILImage)
    (hdec : decode src = Except.ok img)
    (hcond : (["JPEG", "BMP"].contains (normalizeFormat sel)
        && img.mode == Mode.RGBA) = false) :
    saveCall (convert_image decode save src sel dst)
      = some (dst, img, normalizeFormat sel) := by
  have himg : chosenImage img (normalizeFormat sel) = img := by
    unfold chosenImage
    rw [hcond]
    simp
  unfold convert_image
  rw [hdec]
  simp only [himg]
  cases save dst img (normalizeFormat sel) <;>
    simp [saveCall, importedQtCoreNames]

/-- Witness for the amended C4 at a concrete LA image targeting JPEG. -/
theorem flatten_only_for_rgba_jpeg_bmp_witness :
    ((fun _ => Except.ok ⟨Mode.LA, ⟨1, 1⟩, [⟨3, 3, 3, 9⟩]⟩) :
        String → Except String PILImage) "s.png"
      = Except.ok (⟨Mode.LA, ⟨1, 1⟩, [⟨3, 3, 3, 9⟩]⟩ : PILImage)
    ∧ (["JPEG", "BMP"].contains (normalizeFormat "jpeg")
        && (⟨Mode.LA, ⟨1, 1⟩, [⟨3, 3, 3, 9⟩]⟩ : PILImage).mode == Mode.RGBA) = false
    ∧ saveCall (convert_image
        ((fun _ => Except.ok ⟨Mode.LA, ⟨1, 1⟩, [⟨3, 3, 3, 9⟩]⟩) :
          String → Except String PILImage)
        (fun _ _ _ => Except.ok ()) "s.png" "jpeg" "d.jpg")
      = some ("d.jpg", ⟨Mode.LA, ⟨1, 1⟩, [⟨3, 3, 3, 9⟩]⟩, normalizeFormat "jpeg") :=
  ⟨rfl, by decide,
    flatten_only_for_rgba_jpeg_bmp _ _ "s.png" "jpeg" "d.jpg" _ rfl (by decide)⟩

/-- C7: every exception raised by a conversion step is caught at the
routine's boundary and turned into a failure result whose human-readable
message embeds the underlying error text — whether the decoder failed, or
the encode/write call on the (possibly flattened) image failed.  The
routine returns this result normally, so no such exception escapes to the
host process. -/
theorem exception_becomes_failure_result
    (decode : String → Except String PILImage)
    (save : String → PILImage → String → Except String Unit)
    (src sel dst e : String)
    (h : decode src = Except.error e
      ∨ ∃ img, decode src = Except.ok img
          ∧ save dst (chosenImage img (normalizeFormat sel)) (normalizeFormat sel)
              = Except.error e) :
    (convert_image decode save src sel dst).result
      = ⟨false, "Error during conversion: " ++ e⟩ := by
  rcases h with hdec | ⟨img, hdec, hsave⟩
  · unfold convert_image
    rw [hdec]
  · unfold convert_image
    rw [hdec]
    simp only []
    rw [hsave]

/-- Witness for C7 at a concrete failing save call. -/
theorem exception_becomes_failure_result_witness :
    (((fun _ => Except.ok ⟨Mode.RGB, ⟨1, 1⟩, [⟨0, 0, 0, 255⟩]⟩) :
          String → Except String PILImage) "x.png" = Except.error "disk full"
      ∨ ∃ img, ((fun _ => Except.ok ⟨Mode.RGB, ⟨1, 1⟩, [⟨0, 0, 0, 255⟩]⟩) :
            String → Except String PILImage) "x.png" = Except.ok img
          ∧ ((fun _ _ _ => Except.error "disk full") :
              String → PILImage → String → Except String Unit) "y.bmp"
              (chosenImage img (normalizeFormat "bmp")) (normalizeFormat "bmp")
            = Except.error "disk full")
    ∧ (convert_image
        ((fun _ => Except.ok ⟨Mode.RGB, ⟨1, 1⟩, [⟨0, 0, 0, 255⟩]⟩) :
          String → Except String PILImage)
        ((fun _ _ _ => Except.error "disk full") :
          String → PILImage → String → Except String Unit)
        "x.png" "bmp" "y.bmp").result
      = ⟨false, "Error during conversion: " ++ "disk full"⟩ :=
  ⟨Or.inr ⟨⟨Mode.RGB, ⟨1, 1⟩, [⟨0, 0, 0, 255⟩]⟩, rfl, rfl⟩,
    exception_becomes_failure_result _ _ "x.png" "bmp" "y.bmp" "disk full"
      (Or.inr ⟨⟨Mode.RGB, ⟨1, 1⟩, [⟨0, 0, 0, 255⟩]⟩, rfl, rfl⟩)⟩

/-- C5 (exhibiting the code bug): a conversion whose decode and save both
succeed — the destination file is written — emits the milestone sequence
10, 40, 100 and nevertheless delivers a failure result, because source
line 516 references the unimported name `QTimer` after progress was set to
100; so a failing conversion CAN emit a progress-100 event, contrary to
the claim.  The full trace also shows the milestones are non-decreasing
and within [0,100], the parts of the claim the code does satisfy. -/
theorem progress_100_on_failing_conversion :
    convert_image
        ((fun _ => Except.ok ⟨Mode.RGB, ⟨1, 1⟩, [⟨0, 0, 0, 255⟩]⟩) :
          String → Except String PILImage)
        (fun _ _ _ => Except.ok ()) "in.png" "bmp" "out.bmp"
      = ⟨[Ev.status "Loading image...", Ev.progress 10,
          Ev.status "Converting image...", Ev.progress 40,
          Ev.save "out.bmp" ⟨Mode.RGB, ⟨1, 1⟩, [⟨0, 0, 0, 255⟩]⟩ "BMP",
          Ev.status "Conversion complete!", Ev.progress 100,
          Ev.errorBox "Error during conversion: name QTimer is not defined"],
         ⟨false, "Error during conversion: name QTimer is not defined"⟩⟩
    ∧ (convert_image
        ((fun _ => Except.ok ⟨Mode.RGB, ⟨1, 1⟩, [⟨0, 0, 0, 255⟩]⟩) :
          String → Except String PILImage)
        (fun _ _ _ => Except.ok ()) "in.png" "bmp" "out.bmp").events.contains
        (Ev.progress 100) = true
    ∧ (convert_image
        ((fun _ => Except.ok ⟨Mode.RGB, ⟨1, 1⟩, [⟨0, 0, 0, 255⟩]⟩) :
          String → Except String PILImage)
        (fun _ _ _ => Except.ok ()) "in.png" "bmp" "out.bmp").result.success
      = false := by
  refine ⟨by decide, by decide, by decide⟩

/-- C8 counterexample: opening the dialog for a `.bmp` source (combo box
shows "PNG" first), browsing to a file named "out" (normalized to
"out.png" against the then-selected PNG), then changing the target format
to JPEG and accepting, yields a request that writes JPEG data to
"out.png": the destination's extension matches neither ".jpeg" nor
".jpg", so the extension is NOT re-normalized when the target format is
changed after the destination path was chosen. -/
theorem extension_not_renormalized_after_format_change :
    (runDialog "bmp" [DlgEvent.browse (some "out"), DlgEvent.setFormat "JPEG",
        DlgEvent.accept]).output_path = some "out.png"
    ∧ (runDialog "bmp" [DlgEvent.browse (some "out"), DlgEvent.setFormat "JPEG",
        DlgEvent.accept]).selected_format = some "jpeg"
    ∧ pyEndsWith (pyLower "out.png") ("." ++ pyLower "jpeg") = false
    ∧ pyEndsWith (pyLower "out.png") ".jpg" = false
    ∧ saveCall (convert_image
        ((fun _ => Except.ok ⟨Mode.RGB, ⟨1, 1⟩, [⟨4, 4, 4, 255⟩]⟩) :
          String → Except String PILImage)
        (fun _ _ _ => Except.ok ()) "pic.bmp" "jpeg" "out.png")
      = some ("out.png", ⟨Mode.RGB, ⟨1, 1⟩, [⟨4, 4, 4, 255⟩]⟩, "JPEG") := by
  refine ⟨by decide, by decide, by decide, by decide, by decide⟩

/-- C8 amended: extension normalization happens once, inside
`browse_output`, against the format selected at that moment: for every
format the combo box can show and every chosen file name, the stored path
ends (case-insensitively) with that format's dot-extension.  If the target
format is changed afterwards, the path is not re-normalized and the file
is written under the stale extension. -/
theorem browse_appends_selected_format_extension
    (c : String) (hc : c ∈ supported_formats) (name : String) :
    pyEndsWith (pyLower (browse_output c name)) ("." ++ pyLower c) = true := by
  fin_cases hc <;> exact browse_output_ext _ name (by decide)

/-- Witness for the amended C8 at the PNG format and a bare file name. -/
theorem browse_appends_selected_format_extension_witness :
    "PNG" ∈ supported_formats
    ∧ pyEndsWith (pyLower (browse_output "PNG" "out")) ("." ++ pyLower "PNG")
      = true :=
  ⟨by decide, browse_appends_selected_format_extension "PNG" (by decide) "out"⟩

/-- C9 counterexample: for the source "photo.jpg" the lowercased extension
is "jpg", which names the supported format JPEG (the spec's alias); but
the dialog removes only the literal uppercased extension "JPG", which is
not in the format list, so "JPEG" remains selectable, and accepting it
produces a request whose normalized target format equals the source's own
format. -/
theorem jpg_source_can_target_jpeg :
    pyLower (pySplitextExt "photo.jpg") = "jpg"
    ∧ specFormatOfExt "jpg" = some "JPEG"
    ∧ (dialogFormats "jpg").contains "JPEG" = true
    ∧ (runDialog "jpg" [DlgEvent.setFormat "JPEG", DlgEvent.browse (some "photo2"),
        DlgEvent.accept]).selected_format = some "jpeg"
    ∧ specFormatOfExt "jpg" = some (normalizeFormat "jpeg") := by
  refine ⟨by decide, by decide, by decide, by decide, by decide⟩

/-- C9 amended: the dialog removes exactly the format whose NAME equals
the uppercased source extension: whenever the uppercased extension is
itself a member of the offered format list, that member is absent from the
dialog's choices.  (The rule misses alias extensions such as "jpg", whose
uppercasing "JPG" is not a list member, so the source's own format can
still be chosen for them.) -/
theorem uppercased_extension_removed_from_formats
    (e : String) (h : supported_formats.contains (pyUpper e) = true) :
    (dialogFormats e).contains (pyUpper e) = false := by
  have he : (e != "") = true := by
    rcases eq_or_ne e "" with rfl | hne
    · exact absurd h (by decide)
    · simp [hne]
  have hm : pyUpper e ∈ supported_formats := by simpa using h
  unfold dialogFormats
  rw [he, h]
  simp only [Bool.and_self, if_true]
  simp only [supported_formats, List.mem_cons, List.not_mem_nil, or_false] at hm
  rcases hm with h' | h' | h' | h' | h' | h' | h' | h' <;> rw [h'] <;> decide

/-- Witness for the amended C9 at the extension "jpeg". -/
theorem uppercased_extension_removed_from_formats_witness :
    supported_formats.contains (pyUpper "jpeg") = true
    ∧ (dialogFormats "jpeg").contains (pyUpper "jpeg") = false :=
  ⟨by decide, uppercased_extension_removed_from_formats "jpeg" (by decide)⟩

/-- C10: an execution in which the encoder is invoked and the save call
returns success — the destination file is completely written — yet the
caller receives a failure result: evaluating the unimported name `QTimer`
at source line 516 raises a `NameError` caught by the same handler that
reports conversion failures, so a failure result does not imply the
destination file is absent or truncated. -/
theorem failure_reported_after_successful_write :
    saveCall (convert_image
        ((fun _ => Except.ok ⟨Mode.RGB, ⟨1, 1⟩, [⟨1, 1, 1, 255⟩]⟩) :
          String → Except String PILImage)
        ((fun _ _ _ => Except.ok ()) : String → PILImage → String → Except String Unit)
        "in.png" "jpeg" "out.jpeg")
      = some ("out.jpeg", ⟨Mode.RGB, ⟨1, 1⟩, [⟨1, 1, 1, 255⟩]⟩, "JPEG")
    ∧ ((fun _ _ _ => Except.ok ()) : String → PILImage → String → Except String Unit)
        "out.jpeg" ⟨Mode.RGB, ⟨1, 1⟩, [⟨1, 1, 1, 255⟩]⟩ "JPEG" = Except.ok ()
    ∧ (convert_image
        ((fun _ => Except.ok ⟨Mode.RGB, ⟨1, 1⟩, [⟨1, 1, 1, 255⟩]⟩) :
          String → Except String PILImage)
        ((fun _ _ _ => Except.ok ()) : String → PILImage → String → Except String Unit)
        "in.png" "jpeg" "out.jpeg").result.success = false
    ∧ (convert_image
        ((fun _ => Except.ok ⟨Mode.RGB, ⟨1, 1⟩, [⟨1, 1, 1, 255⟩]⟩) :
          String → Except String PILImage)
        ((fun _ _ _ => Except.ok ()) : String → PILImage → String → Except String Unit)
        "in.png" "jpeg" "out.jpeg").result.message
      = "Error during conversion: name QTimer is not defined" := by
  refine ⟨by decide, rfl, by decide, by decide⟩

end Infiltrate
